import Mathlib

/-!
Verification development for the supervised task-execution core of the
clawcollab repository (module `agent_runner.py`).

The Python module is embedded shallowly:

* Python `str` values become `String`; Python slicing and the `in`
  operator work on code points, so they are modelled through `String.data`
  (`pyTake`, `pyTakeLast`, `pyIn`).
* The standard-library regular-expression matcher `re.search` is an
  external pure function; it is passed in as an oracle parameter
  `re_search : String → String → Bool` (pattern, haystack).
* Clock readings, the spawned subprocess and the secondary `git log`
  query are external effects; they are supplied by an `Env` record and
  the observable actions of a run are recorded in an `Event` trace.
* Timestamps are modelled as `Nat` (the sentinel `datetime.min` becomes
  `0`, `isoformat` is injective and monotone so serialized timestamps
  keep the `Option Nat` representation).
-/

/-- Python code-point slicing `s[:n]`. -/
def pyTake (s : String) (n : Nat) : String := ⟨s.data.take n⟩

/-- Python code-point slicing `s[-n:]` for a string known to be longer than `n`. -/
def pyTakeLast (s : String) (n : Nat) : String := ⟨s.data.drop (s.data.length - n)⟩

/-- Python substring membership `needle in hay` (on code points). -/
def pyIn (needle hay : String) : Bool := decide (needle.data <:+: hay.data)

/-- Python `s.lower()` (per code point; the rule set is plain ASCII). -/
def pyLower (s : String) : String := ⟨s.data.map Char.toLower⟩

/-- Python `s.strip()`: remove leading and trailing whitespace. -/
def pyStrip (s : String) : String :=
  ⟨(((s.data.dropWhile Char.isWhitespace).reverse.dropWhile Char.isWhitespace).reverse)⟩

/-- Configuration constant `MAX_TASK_DURATION = 600` (10 minutes max per task). -/
def MAX_TASK_DURATION : Nat := 600

/-- Privacy protection regular-expression pattern list `PRIVACY_VIOLATION_PATTERNS`. -/
def PRIVACY_VIOLATION_PATTERNS : List String :=
  ["\\b(founder|creator|owner|developer|author)\\s*(of|behind|who\\s+made|who\\s+created)\\b",
   "\\b(who\\s+is|who\\\x27s|about)\\s+(the\\s+)?(founder|creator|owner|admin)\\b",
   "\\bpersonal\\s+(page|profile|info|information|details)\\b",
   "\\b(reveal|show|tell|expose|display)\\s+(my|the|their)\\s+(identity|name|email|info)\\b",
   "\\b(doxx|dox|expose\\s+identity)\\b",
   "\\b(api[_\\s]?key|secret[_\\s]?key|password|credential|token)\\s*(of|for|from)\\b",
   "\\b(ip\\s+address|server\\s+location|infrastructure)\\b"]

/-- Privacy protection keyword denylist `PRIVACY_VIOLATION_KEYWORDS`. -/
def PRIVACY_VIOLATION_KEYWORDS : List String :=
  ["founder page", "creator page", "owner page", "about the founder",
   "who made this", "who created this", "who owns this", "real name",
   "personal information", "contact details", "private information"]

/-- The first keyword loop of `check_privacy_violation`: scan the denylist in
order and return the first keyword contained in the lowered instruction. -/
def keywordHit (lower : String) : List String → Option String
  | [] => none
  | keyword :: rest =>
      if pyIn keyword lower then some keyword else keywordHit lower rest

/-- The second loop of `check_privacy_violation`: scan the regex patterns in
order with the `re.search` oracle, returning on the first match. -/
def patternHit (re_search : String → String → Bool) (lower : String) : List String → Bool
  | [] => false
  | pat :: rest =>
      if re_search pat lower then true else patternHit re_search lower rest

/-- Embedding of `check_privacy_violation(instruction)`: returns the pair
`(is_violation, reason)`. -/
def check_privacy_violation (re_search : String → String → Bool)
    (instruction : String) : Bool × String :=
  let instruction_lower := pyLower instruction
  match keywordHit instruction_lower PRIVACY_VIOLATION_KEYWORDS with
  | some keyword =>
      (true, "Request contains privacy-sensitive keyword: \x27" ++ keyword ++ "\x27")
  | none =>
      if patternHit re_search instruction_lower PRIVACY_VIOLATION_PATTERNS then
        (true, "Request matches privacy-sensitive pattern")
      else
        (false, "")

/-- Embedding of the `DevTask` class fields. -/
structure DevTask where
  task_id : String
  instruction : String
  requester : String
  status : String
  started_at : Option Nat
  completed_at : Option Nat
  output : String
  error : String
  git_commit : String
deriving DecidableEq, Repr

/-- Embedding of `DevTask.__init__(task_id, instruction, requester)`. -/
def DevTask.init (task_id instruction requester : String) : DevTask :=
  { task_id := task_id
    instruction := instruction
    requester := requester
    status := "pending"
    started_at := none
    completed_at := none
    output := ""
    error := ""
    git_commit := "" }

/-- The dictionary produced by `DevTask.to_dict` (the audit-log / view form). -/
structure TaskView where
  task_id : String
  instruction : String
  requester : String
  status : String
  started_at : Option Nat
  completed_at : Option Nat
  output : String
  error : String
  git_commit : String
deriving DecidableEq, Repr

/-- Embedding of `DevTask.to_dict`. -/
def DevTask.to_dict (t : DevTask) : TaskView :=
  { task_id := t.task_id
    instruction :=
      if t.instruction.length > 200 then pyTake t.instruction 200 ++ "..."
      else t.instruction
    requester := t.requester
    status := t.status
    started_at := t.started_at
    completed_at := t.completed_at
    output :=
      if t.output.length > 2000 then pyTakeLast t.output 2000 else t.output
    error := t.error
    git_commit := t.git_commit }

/-- Outcome of `subprocess.run(["git", "log", "-1", ...])`: exit code and stdout. -/
structure GitResult where
  returncode : Int
  stdout : String
deriving DecidableEq, Repr

/-- Externally determined fate of the spawned agent process: the spawn call
raises, the wait times out, or the process exits in time with an exit code
and decoded output streams. -/
inductive SpawnOutcome where
  | spawnError (msg : String)
  | timeout
  | exited (returncode : Int) (stdout stderr : String)
deriving DecidableEq, Repr

/-- External environment of one `run_claude_task` call: the two clock readings
(`datetime.utcnow()` at entry and at completion), the process fate, and the
result of the secondary git query. -/
structure Env where
  startTime : Nat
  endTime : Nat
  spawn : SpawnOutcome
  gitLog : GitResult
deriving DecidableEq, Repr

/-- Observable actions of a `run_claude_task` run, in program order. -/
inductive Event where
  | setStatus (s : String)
  | setStartedAt (t : Nat)
  | register (id : String) (statusAtRegistration : String)
  | policyCheck (violation : Bool)
  | spawn
  | kill
  | gitLookup
  | setCompletedAt (t : Nat)
  | writeLog (id : String) (entry : TaskView)
deriving DecidableEq, Repr

/-- Fixed rejection message format of the policy branch of `run_claude_task`. -/
def rejectionMessage (reason : String) : String :=
  "Privacy violation: " ++ reason ++ ". This request cannot be processed."

/-- Error text set on the timeout branch of `run_claude_task`. -/
def timeoutMessage : String :=
  "Task timed out after " ++ toString MAX_TASK_DURATION ++ " seconds"

/-- Embedding of `run_claude_task(task)`; returns the final record and the
trace of observable actions in program order. The Python function first marks
the task running, stamps `started_at` and registers it in `active_tasks`,
then runs the privacy check, and only then (on pass) spawns the process;
the `finally` block stamps `completed_at` and writes the log file. -/
def run_claude_task (re_search : String → String → Bool)
    (task : DevTask) (env : Env) : DevTask × List Event :=
  let task := { task with status := "running", started_at := some env.startTime }
  let entryEvents : List Event :=
    [.setStatus "running", .setStartedAt env.startTime, .register task.task_id task.status]
  let check := check_privacy_violation re_search task.instruction
  if check.1 then
    let task := { task with
      status := "rejected"
      error := rejectionMessage check.2
      completed_at := some env.endTime }
    (task, entryEvents ++
      [.policyCheck true, .setStatus "rejected",
       .setCompletedAt env.endTime, .writeLog task.task_id task.to_dict])
  else
    let afterTry : DevTask × List Event :=
      match env.spawn with
      | .spawnError msg =>
          ({ task with status := "failed", error := msg }, [.setStatus "failed"])
      | .timeout =>
          ({ task with status := "failed", error := timeoutMessage },
           [.spawn, .kill, .setStatus "failed"])
      | .exited rc out err =>
          let task := { task with output := out, error := err }
          let task :=
            if env.gitLog.returncode = 0 then
              { task with git_commit := pyStrip env.gitLog.stdout }
            else task
          let status := if rc = 0 then "completed" else "failed"
          ({ task with status := status }, [.spawn, .gitLookup, .setStatus status])
    let final := { afterTry.1 with completed_at := some env.endTime }
    (final, entryEvents ++ [.policyCheck false] ++ afterTry.2 ++
      [.setCompletedAt env.endTime, .writeLog final.task_id final.to_dict])

/-- Embedding of `list_recent_tasks(limit)` over the current registry contents
(`active_tasks.values()` in insertion order). Python `sorted(..., reverse=True)`
is a stable descending sort, here `List.mergeSort` with the flipped key order;
a missing `started_at` falls back to the sentinel `datetime.min`, here `0`. -/
def list_recent_tasks (tasks : List DevTask) (limit : Nat) : List TaskView :=
  let sorted := tasks.mergeSort
    (fun a b => decide (b.started_at.getD 0 ≤ a.started_at.getD 0))
  (sorted.take limit).map DevTask.to_dict

example :
    check_privacy_violation (fun _ _ => false) "Who made this?" =
      (true, "Request contains privacy-sensitive keyword: \x27who made this\x27") := by
  decide

example :
    check_privacy_violation (fun _ _ => false) "add a health endpoint" = (false, "") := by
  decide

/-! Helper lemmas about the two scanning loops of the Policy Gate. -/

theorem keywordHit_eq_none {lower : String} {ks : List String} :
    keywordHit lower ks = none ↔ ∀ k ∈ ks, pyIn k lower = false := by
  induction ks with
  | nil => simp [keywordHit]
  | cons k rest ih =>
      by_cases hk : pyIn k lower
      · simp [keywordHit, hk]
      · simp only [keywordHit, if_neg hk, ih]
        constructor
        · intro h x hx
          cases hx with
          | head => exact Bool.eq_false_iff.mpr hk
          | tail _ hmem => exact h x hmem
        · intro h x hx
          exact h x (List.mem_cons_of_mem _ hx)

theorem keywordHit_first {lower : String} (pre : List String) (k : String)
    (post : List String) (hpre : ∀ x ∈ pre, pyIn x lower = false)
    (hk : pyIn k lower = true) :
    keywordHit lower (pre ++ k :: post) = some k := by
  induction pre with
  | nil => simp [keywordHit, hk]
  | cons x rest ih =>
      have hx : pyIn x lower = false := hpre x (List.mem_cons_self x rest)
      simp only [List.cons_append, keywordHit, hx]
      simp only [Bool.false_eq_true, if_false]
      exact ih fun y hy => hpre y (List.mem_cons_of_mem _ hy)

theorem patternHit_iff_exists {r : String → String → Bool} {lower : String}
    {ps : List String} :
    patternHit r lower ps = true ↔ ∃ p ∈ ps, r p lower = true := by
  induction ps with
  | nil => simp [patternHit]
  | cons p rest ih =>
      by_cases hp : r p lower
      · simp [patternHit, hp]
      · simp only [patternHit, if_neg hp, ih]
        constructor
        · rintro ⟨q, hq, hr⟩
          exact ⟨q, List.mem_cons_of_mem _ hq, hr⟩
        · rintro ⟨q, hq, hr⟩
          cases hq with
          | head => exact absurd hr hp
          | tail _ hmem => exact ⟨q, hmem, hr⟩

theorem pyIn_append_middle (a k b : String) : pyIn k (a ++ k ++ b) = true := by
  have h : k.data <:+: (a ++ k ++ b).data := by
    refine ⟨a.data, b.data, ?_⟩
    simp [String.data_append]
  simp [pyIn, h]

/-- Claim C4: `check_privacy_violation` is case-insensitive and two-tiered.
It lowers the instruction once; the fixed denylist keywords are tested first
by exact-substring membership, the first keyword match wins and its phrase is
quoted in the reason; only when no keyword matches are the fixed ordered
regex patterns consulted, and a pattern match yields the fixed reason that
names no pattern; with no match at all the result is `(false, "")`. -/
theorem c4_check_privacy_violation_two_tiered (r : String → String → Bool)
    (instruction : String) :
    (∀ s : String, pyLower s = pyLower instruction →
        check_privacy_violation r s = check_privacy_violation r instruction) ∧
    (∀ pre k post, PRIVACY_VIOLATION_KEYWORDS = pre ++ k :: post →
        (∀ x ∈ pre, pyIn x (pyLower instruction) = false) →
        pyIn k (pyLower instruction) = true →
        check_privacy_violation r instruction =
          (true, "Request contains privacy-sensitive keyword: \x27" ++ k ++ "\x27") ∧
        pyIn k (check_privacy_violation r instruction).2 = true) ∧
    ((∀ k ∈ PRIVACY_VIOLATION_KEYWORDS, pyIn k (pyLower instruction) = false) →
        (∃ p ∈ PRIVACY_VIOLATION_PATTERNS, r p (pyLower instruction) = true) →
        check_privacy_violation r instruction =
          (true, "Request matches privacy-sensitive pattern")) ∧
    ((∀ k ∈ PRIVACY_VIOLATION_KEYWORDS, pyIn k (pyLower instruction) = false) →
        (∀ p ∈ PRIVACY_VIOLATION_PATTERNS, r p (pyLower instruction) = false) →
        check_privacy_violation r instruction = (false, "")) := by
  refine ⟨?_, ?_, ?_, ?_⟩
  · intro s hs
    simp [check_privacy_violation, hs]
  · intro pre k post hsplit hpre hk
    have hhit : keywordHit (pyLower instruction) PRIVACY_VIOLATION_KEYWORDS = some k := by
      rw [hsplit]; exact keywordHit_first pre k post hpre hk
    constructor
    · simp [check_privacy_violation, hhit]
    · simp only [check_privacy_violation, hhit]
      exact pyIn_append_middle "Request contains privacy-sensitive keyword: \x27" k "\x27"
  · intro hnone ⟨p, hp, hr⟩
    have hhit : keywordHit (pyLower instruction) PRIVACY_VIOLATION_KEYWORDS = none :=
      keywordHit_eq_none.mpr hnone
    have hpat : patternHit r (pyLower instruction) PRIVACY_VIOLATION_PATTERNS = true :=
      patternHit_iff_exists.mpr ⟨p, hp, hr⟩
    simp [check_privacy_violation, hhit, hpat]
  · intro hnone hpats
    have hhit : keywordHit (pyLower instruction) PRIVACY_VIOLATION_KEYWORDS = none :=
      keywordHit_eq_none.mpr hnone
    have hpat : patternHit r (pyLower instruction) PRIVACY_VIOLATION_PATTERNS = false := by
      rw [Bool.eq_false_iff]
      intro hcontra
      obtain ⟨p, hp, hr⟩ := patternHit_iff_exists.mp hcontra
      exact absurd hr (by simp [hpats p hp])
    simp [check_privacy_violation, hhit, hpat]

/-- Witness for C4: the keyword tier fires on a mixed-case instruction, naming
the matched phrase in the reason. -/
theorem c4_witness :
    check_privacy_violation (fun _ _ => false) "Who made this?" =
      (true, "Request contains privacy-sensitive keyword: \x27who made this\x27") ∧
    pyIn "who made this"
      (check_privacy_violation (fun _ _ => false) "Who made this?").2 = true :=
  (c4_check_privacy_violation_two_tiered (fun _ _ => false) "Who made this?").2.1
    ["founder page", "creator page", "owner page", "about the founder"]
    "who made this"
    ["who created this", "who owns this", "real name",
     "personal information", "contact details", "private information"]
    (by decide) (by decide) (by decide)

/-! Branch characterizations of `run_claude_task`, one per execution path. -/

theorem run_claude_task_rejected (r : String → String → Bool) (task : DevTask)
    (env : Env) (h : (check_privacy_violation r task.instruction).1 = true) :
    run_claude_task r task env =
      ({ task with
          status := "rejected"
          started_at := some env.startTime
          error := rejectionMessage (check_privacy_violation r task.instruction).2
          completed_at := some env.endTime },
       [.setStatus "running", .setStartedAt env.startTime,
        .register task.task_id "running", .policyCheck true, .setStatus "rejected",
        .setCompletedAt env.endTime,
        .writeLog task.task_id
          (DevTask.to_dict { task with
            status := "rejected"
            started_at := some env.startTime
            error := rejectionMessage (check_privacy_violation r task.instruction).2
            completed_at := some env.endTime })]) := by
  simp [run_claude_task, h]

theorem run_claude_task_spawn_error (r : String → String → Bool) (task : DevTask)
    (env : Env) (msg : String)
    (h : (check_privacy_violation r task.instruction).1 = false)
    (hs : env.spawn = .spawnError msg) :
    run_claude_task r task env =
      ({ task with
          status := "failed"
          started_at := some env.startTime
          error := msg
          completed_at := some env.endTime },
       [.setStatus "running", .setStartedAt env.startTime,
        .register task.task_id "running", .policyCheck false, .setStatus "failed",
        .setCompletedAt env.endTime,
        .writeLog task.task_id
          (DevTask.to_dict { task with
            status := "failed"
            started_at := some env.startTime
            error := msg
            completed_at := some env.endTime })]) := by
  simp [run_claude_task, h, hs]

theorem run_claude_task_timed_out (r : String → String → Bool) (task : DevTask)
    (env : Env) (h : (check_privacy_violation r task.instruction).1 = false)
    (ht : env.spawn = .timeout) :
    run_claude_task r task env =
      ({ task with
          status := "failed"
          started_at := some env.startTime
          error := timeoutMessage
          completed_at := some env.endTime },
       [.setStatus "running", .setStartedAt env.startTime,
        .register task.task_id "running", .policyCheck false, .spawn, .kill,
        .setStatus "failed", .setCompletedAt env.endTime,
        .writeLog task.task_id
          (DevTask.to_dict { task with
            status := "failed"
            started_at := some env.startTime
            error := timeoutMessage
            completed_at := some env.endTime })]) := by
  simp [run_claude_task, h, ht]

theorem run_claude_task_exited (r : String → String → Bool) (task : DevTask)
    (env : Env) (rc : Int) (out err : String)
    (h : (check_privacy_violation r task.instruction).1 = false)
    (he : env.spawn = .exited rc out err) :
    run_claude_task r task env =
      ({ task with
          status := if rc = 0 then "completed" else "failed"
          started_at := some env.startTime
          output := out
          error := err
          git_commit :=
            if env.gitLog.returncode = 0 then pyStrip env.gitLog.stdout
            else task.git_commit
          completed_at := some env.endTime },
       [.setStatus "running", .setStartedAt env.startTime,
        .register task.task_id "running", .policyCheck false, .spawn, .gitLookup,
        .setStatus (if rc = 0 then "completed" else "failed"),
        .setCompletedAt env.endTime,
        .writeLog task.task_id
          (DevTask.to_dict { task with
            status := if rc = 0 then "completed" else "failed"
            started_at := some env.startTime
            output := out
            error := err
            git_commit :=
              if env.gitLog.returncode = 0 then pyStrip env.gitLog.stdout
              else task.git_commit
            completed_at := some env.endTime })]) := by
  by_cases hg : env.gitLog.returncode = 0 <;> by_cases hrc : rc = 0 <;>
    simp [run_claude_task, h, he, hg, hrc]

/-- Recognizer for audit-log write events. -/
def Event.isWriteLog : Event → Bool
  | .writeLog _ _ => true
  | _ => false

/-- Claim C5: every execution path of `run_claude_task` (rejection, completion,
failure, timeout, spawn exception) ends in a terminal state with
`completed_at` set, and the audit log entry, keyed by the task id, is written
exactly once, whatever terminal branch was taken. -/
theorem c5_terminal_state_and_single_audit_write (r : String → String → Bool)
    (task : DevTask) (env : Env) :
    ((run_claude_task r task env).2.filter Event.isWriteLog) =
      [Event.writeLog task.task_id (run_claude_task r task env).1.to_dict] ∧
    (run_claude_task r task env).1.task_id = task.task_id ∧
    (run_claude_task r task env).1.completed_at = some env.endTime ∧
    ((run_claude_task r task env).1.status = "completed" ∨
     (run_claude_task r task env).1.status = "failed" ∨
     (run_claude_task r task env).1.status = "rejected") := by
  by_cases h : (check_privacy_violation r task.instruction).1
  · rw [run_claude_task_rejected r task env h]
    simp [Event.isWriteLog]
  · rw [Bool.not_eq_true] at h
    cases hs : env.spawn with
    | spawnError msg =>
        rw [run_claude_task_spawn_error r task env msg h hs]
        simp [Event.isWriteLog]
    | timeout =>
        rw [run_claude_task_timed_out r task env h hs]
        simp [Event.isWriteLog]
    | exited rc out err =>
        rw [run_claude_task_exited r task env rc out err h hs]
        by_cases hrc : rc = 0 <;> simp [Event.isWriteLog, hrc]

/-- Claim C2: if the external process does not exit before the deadline
(`MAX_TASK_DURATION = 600` seconds), the process is forcibly killed, the final
status is `failed`, and the error text names the timeout and contains the
configured deadline value. -/
theorem c2_timeout_failed_with_deadline_in_error (r : String → String → Bool)
    (id instr req : String) (env : Env)
    (hpass : (check_privacy_violation r instr).1 = false)
    (ht : env.spawn = .timeout) :
    (run_claude_task r (DevTask.init id instr req) env).1.status = "failed" ∧
    (run_claude_task r (DevTask.init id instr req) env).1.error = timeoutMessage ∧
    "timed out".data <:+:
      (run_claude_task r (DevTask.init id instr req) env).1.error.data ∧
    (toString MAX_TASK_DURATION).data <:+:
      (run_claude_task r (DevTask.init id instr req) env).1.error.data ∧
    MAX_TASK_DURATION = 600 ∧
    Event.kill ∈ (run_claude_task r (DevTask.init id instr req) env).2 := by
  have h : (check_privacy_violation r (DevTask.init id instr req).instruction).1 = false :=
    hpass
  rw [run_claude_task_timed_out r _ env h ht]
  refine ⟨rfl, rfl, ?_, ?_, rfl, ?_⟩
  · show "timed out".data <:+: timeoutMessage.data
    exact ⟨"Task ".data, " after 600 seconds".data, by decide⟩
  · show (toString MAX_TASK_DURATION).data <:+: timeoutMessage.data
    exact ⟨"Task timed out after ".data, " seconds".data, by decide⟩
  · simp

/-- Witness for C2: a benign instruction and a timing-out process. -/
theorem c2_witness :
    (run_claude_task (fun _ _ => false) (DevTask.init "dev_w2" "add tests" "bot")
      ⟨5, 9, SpawnOutcome.timeout, ⟨1, ""⟩⟩).1.status = "failed" ∧
    (run_claude_task (fun _ _ => false) (DevTask.init "dev_w2" "add tests" "bot")
      ⟨5, 9, SpawnOutcome.timeout, ⟨1, ""⟩⟩).1.error = timeoutMessage ∧
    "timed out".data <:+:
      (run_claude_task (fun _ _ => false) (DevTask.init "dev_w2" "add tests" "bot")
        ⟨5, 9, SpawnOutcome.timeout, ⟨1, ""⟩⟩).1.error.data ∧
    (toString MAX_TASK_DURATION).data <:+:
      (run_claude_task (fun _ _ => false) (DevTask.init "dev_w2" "add tests" "bot")
        ⟨5, 9, SpawnOutcome.timeout, ⟨1, ""⟩⟩).1.error.data ∧
    MAX_TASK_DURATION = 600 ∧
    Event.kill ∈ (run_claude_task (fun _ _ => false)
      (DevTask.init "dev_w2" "add tests" "bot")
      ⟨5, 9, SpawnOutcome.timeout, ⟨1, ""⟩⟩).2 :=
  c2_timeout_failed_with_deadline_in_error (fun _ _ => false) "dev_w2" "add tests"
    "bot" ⟨5, 9, SpawnOutcome.timeout, ⟨1, ""⟩⟩ (by decide) rfl

/-- Claim C6: when the process exits within the deadline, the final status is
`completed` exactly when the exit code is `0` and `failed` otherwise, and the
error field holds exactly the captured standard-error stream. -/
theorem c6_exit_code_classification (r : String → String → Bool)
    (id instr req : String) (env : Env) (rc : Int) (out err : String)
    (hpass : (check_privacy_violation r instr).1 = false)
    (he : env.spawn = .exited rc out err) :
    ((run_claude_task r (DevTask.init id instr req) env).1.status = "completed" ↔
      rc = 0) ∧
    (rc ≠ 0 → (run_claude_task r (DevTask.init id instr req) env).1.status = "failed") ∧
    (run_claude_task r (DevTask.init id instr req) env).1.error = err := by
  have h : (check_privacy_violation r (DevTask.init id instr req).instruction).1 = false :=
    hpass
  rw [run_claude_task_exited r _ env rc out err h he]
  by_cases hrc : rc = 0 <;> simp [hrc]

/-- Witness for C6: a successful exit with empty stderr is classified completed. -/
theorem c6_witness :
    ((run_claude_task (fun _ _ => false) (DevTask.init "dev_w6" "add tests" "bot")
        ⟨5, 9, SpawnOutcome.exited 0 "done" "", ⟨1, ""⟩⟩).1.status = "completed" ↔
      (0 : Int) = 0) ∧
    ((0 : Int) ≠ 0 →
      (run_claude_task (fun _ _ => false) (DevTask.init "dev_w6" "add tests" "bot")
        ⟨5, 9, SpawnOutcome.exited 0 "done" "", ⟨1, ""⟩⟩).1.status = "failed") ∧
    (run_claude_task (fun _ _ => false) (DevTask.init "dev_w6" "add tests" "bot")
      ⟨5, 9, SpawnOutcome.exited 0 "done" "", ⟨1, ""⟩⟩).1.error = "" :=
  c6_exit_code_classification (fun _ _ => false) "dev_w6" "add tests" "bot"
    ⟨5, 9, SpawnOutcome.exited 0 "done" "", ⟨1, ""⟩⟩ 0 "done" "" (by decide) rfl

/-- Claim C9: an exception while spawning the external process is caught and
converted into a `failed` terminal record carrying the exception message as
the error; the run still stamps `completed_at` and writes its audit entry, so
nothing propagates as an unhandled fault. -/
theorem c9_spawn_exception_converted_to_failed (r : String → String → Bool)
    (id instr req : String) (env : Env) (msg : String)
    (hpass : (check_privacy_violation r instr).1 = false)
    (hs : env.spawn = .spawnError msg) :
    (run_claude_task r (DevTask.init id instr req) env).1.status = "failed" ∧
    (run_claude_task r (DevTask.init id instr req) env).1.error = msg ∧
    (run_claude_task r (DevTask.init id instr req) env).1.completed_at =
      some env.endTime ∧
    Event.writeLog id (run_claude_task r (DevTask.init id instr req) env).1.to_dict
      ∈ (run_claude_task r (DevTask.init id instr req) env).2 ∧
    Event.spawn ∉ (run_claude_task r (DevTask.init id instr req) env).2 := by
  have h : (check_privacy_violation r (DevTask.init id instr req).instruction).1 = false :=
    hpass
  rw [run_claude_task_spawn_error r _ env msg h hs]
  refine ⟨rfl, rfl, rfl, ?_, ?_⟩
  · simp [DevTask.init]
  · simp

/-- Witness for C9: the spawn call raises with an executable-not-found message. -/
theorem c9_witness :
    (run_claude_task (fun _ _ => false) (DevTask.init "dev_w9" "add tests" "bot")
      ⟨5, 9, SpawnOutcome.spawnError "No such file or directory: claude", ⟨1, ""⟩⟩).1.status
      = "failed" ∧
    (run_claude_task (fun _ _ => false) (DevTask.init "dev_w9" "add tests" "bot")
      ⟨5, 9, SpawnOutcome.spawnError "No such file or directory: claude", ⟨1, ""⟩⟩).1.error
      = "No such file or directory: claude" ∧
    (run_claude_task (fun _ _ => false) (DevTask.init "dev_w9" "add tests" "bot")
      ⟨5, 9, SpawnOutcome.spawnError "No such file or directory: claude", ⟨1, ""⟩⟩).1.completed_at
      = some 9 ∧
    Event.writeLog "dev_w9"
      (run_claude_task (fun _ _ => false) (DevTask.init "dev_w9" "add tests" "bot")
        ⟨5, 9, SpawnOutcome.spawnError "No such file or directory: claude", ⟨1, ""⟩⟩).1.to_dict
      ∈ (run_claude_task (fun _ _ => false) (DevTask.init "dev_w9" "add tests" "bot")
        ⟨5, 9, SpawnOutcome.spawnError "No such file or directory: claude", ⟨1, ""⟩⟩).2 ∧
    Event.spawn ∉ (run_claude_task (fun _ _ => false)
      (DevTask.init "dev_w9" "add tests" "bot")
      ⟨5, 9, SpawnOutcome.spawnError "No such file or directory: claude", ⟨1, ""⟩⟩).2 :=
  c9_spawn_exception_converted_to_failed (fun _ _ => false) "dev_w9" "add tests"
    "bot" ⟨5, 9, SpawnOutcome.spawnError "No such file or directory: claude", ⟨1, ""⟩⟩
    "No such file or directory: claude" (by decide) rfl

/-- Claim C10: on the timeout path only `status`, `error` and `completed_at`
change: the output stays empty (buffered stdout is discarded), no commit
lookup happens and `git_commit` stays unset, and the identity fields and
`started_at` keep their values. -/
theorem c10_timeout_frame_effect (r : String → String → Bool)
    (id instr req : String) (env : Env)
    (hpass : (check_privacy_violation r instr).1 = false)
    (ht : env.spawn = .timeout) :
    (run_claude_task r (DevTask.init id instr req) env).1.output = "" ∧
    (run_claude_task r (DevTask.init id instr req) env).1.git_commit = "" ∧
    (run_claude_task r (DevTask.init id instr req) env).1.task_id = id ∧
    (run_claude_task r (DevTask.init id instr req) env).1.instruction = instr ∧
    (run_claude_task r (DevTask.init id instr req) env).1.requester = req ∧
    (run_claude_task r (DevTask.init id instr req) env).1.started_at =
      some env.startTime ∧
    Event.gitLookup ∉ (run_claude_task r (DevTask.init id instr req) env).2 := by
  have h : (check_privacy_violation r (DevTask.init id instr req).instruction).1 = false :=
    hpass
  rw [run_claude_task_timed_out r _ env h ht]
  refine ⟨rfl, rfl, rfl, rfl, rfl, rfl, ?_⟩
  simp

/-- Witness for C10: concrete timing-out run keeps output and commit unset. -/
theorem c10_witness :
    (run_claude_task (fun _ _ => false) (DevTask.init "dev_w10" "add tests" "bot")
      ⟨5, 9, SpawnOutcome.timeout, ⟨0, "abc123 subject"⟩⟩).1.output = "" ∧
    (run_claude_task (fun _ _ => false) (DevTask.init "dev_w10" "add tests" "bot")
      ⟨5, 9, SpawnOutcome.timeout, ⟨0, "abc123 subject"⟩⟩).1.git_commit = "" ∧
    (run_claude_task (fun _ _ => false) (DevTask.init "dev_w10" "add tests" "bot")
      ⟨5, 9, SpawnOutcome.timeout, ⟨0, "abc123 subject"⟩⟩).1.task_id = "dev_w10" ∧
    (run_claude_task (fun _ _ => false) (DevTask.init "dev_w10" "add tests" "bot")
      ⟨5, 9, SpawnOutcome.timeout, ⟨0, "abc123 subject"⟩⟩).1.instruction = "add tests" ∧
    (run_claude_task (fun _ _ => false) (DevTask.init "dev_w10" "add tests" "bot")
      ⟨5, 9, SpawnOutcome.timeout, ⟨0, "abc123 subject"⟩⟩).1.requester = "bot" ∧
    (run_claude_task (fun _ _ => false) (DevTask.init "dev_w10" "add tests" "bot")
      ⟨5, 9, SpawnOutcome.timeout, ⟨0, "abc123 subject"⟩⟩).1.started_at = some 5 ∧
    Event.gitLookup ∉ (run_claude_task (fun _ _ => false)
      (DevTask.init "dev_w10" "add tests" "bot")
      ⟨5, 9, SpawnOutcome.timeout, ⟨0, "abc123 subject"⟩⟩).2 :=
  c10_timeout_frame_effect (fun _ _ => false) "dev_w10" "add tests" "bot"
    ⟨5, 9, SpawnOutcome.timeout, ⟨0, "abc123 subject"⟩⟩ (by decide) rfl

/-- Helper: a rejection message is never the empty string. -/
theorem rejectionMessage_ne_empty (s : String) : rejectionMessage s ≠ "" := by
  intro hc
  have hlen := congrArg String.length hc
  simp [rejectionMessage, String.length_append] at hlen
  exact absurd hlen.2 (by decide)

/-- Claim C1 counterexample: a policy-violating instruction ends `rejected`,
yet the very same run has already set the status to `running` and stamped
`started_at` before the policy check, and the registry insertion happens with
status `running`, not `pending`. This contradicts the claim that a rejected
task never entered `running` and that `started_at` is never set. -/
theorem c1_counterexample :
    (run_claude_task (fun _ _ => false)
      (DevTask.init "dev_c1" "add a founder page" "clawdbot")
      ⟨5, 9, SpawnOutcome.timeout, ⟨1, ""⟩⟩).1.status = "rejected" ∧
    (run_claude_task (fun _ _ => false)
      (DevTask.init "dev_c1" "add a founder page" "clawdbot")
      ⟨5, 9, SpawnOutcome.timeout, ⟨1, ""⟩⟩).1.started_at = some 5 ∧
    (run_claude_task (fun _ _ => false)
      (DevTask.init "dev_c1" "add a founder page" "clawdbot")
      ⟨5, 9, SpawnOutcome.timeout, ⟨1, ""⟩⟩).2.take 4 =
      [Event.setStatus "running", Event.setStartedAt 5,
       Event.register "dev_c1" "running", Event.policyCheck true] := by
  decide

/-- Claim C1 (amended): the surviving content of the claim. A task starts
`pending` at construction; on a policy violation the final status is
`rejected` with a non-empty reason, no subprocess is ever spawned and the
output stays empty. However the orchestrator marks the task `running`,
stamps `started_at` and registers it (already in state `running`) before the
policy check, so a rejected task has passed through `running` and keeps
`started_at` set. -/
theorem c1_amended_rejection_invariants (r : String → String → Bool)
    (id instr req : String) (env : Env)
    (hviol : (check_privacy_violation r instr).1 = true) :
    (DevTask.init id instr req).status = "pending" ∧
    (run_claude_task r (DevTask.init id instr req) env).1.status = "rejected" ∧
    (run_claude_task r (DevTask.init id instr req) env).1.error =
      rejectionMessage (check_privacy_violation r instr).2 ∧
    (run_claude_task r (DevTask.init id instr req) env).1.error ≠ "" ∧
    (run_claude_task r (DevTask.init id instr req) env).1.output = "" ∧
    (run_claude_task r (DevTask.init id instr req) env).1.started_at =
      some env.startTime ∧
    Event.spawn ∉ (run_claude_task r (DevTask.init id instr req) env).2 ∧
    Event.register id "running" ∈ (run_claude_task r (DevTask.init id instr req) env).2 := by
  have h : (check_privacy_violation r (DevTask.init id instr req).instruction).1 = true :=
    hviol
  rw [run_claude_task_rejected r _ env h]
  refine ⟨rfl, rfl, rfl, rejectionMessage_ne_empty _, rfl, rfl, ?_, ?_⟩
  · simp
  · simp [DevTask.init]

/-- Witness for C1 amended: the counterexample instruction again, through the
amended statement. -/
theorem c1_amended_witness :
    (DevTask.init "dev_w1" "add a founder page" "clawdbot").status = "pending" ∧
    (run_claude_task (fun _ _ => false)
      (DevTask.init "dev_w1" "add a founder page" "clawdbot")
      ⟨5, 9, SpawnOutcome.timeout, ⟨1, ""⟩⟩).1.status = "rejected" ∧
    (run_claude_task (fun _ _ => false)
      (DevTask.init "dev_w1" "add a founder page" "clawdbot")
      ⟨5, 9, SpawnOutcome.timeout, ⟨1, ""⟩⟩).1.error =
      rejectionMessage
        (check_privacy_violation (fun _ _ => false) "add a founder page").2 ∧
    (run_claude_task (fun _ _ => false)
      (DevTask.init "dev_w1" "add a founder page" "clawdbot")
      ⟨5, 9, SpawnOutcome.timeout, ⟨1, ""⟩⟩).1.error ≠ "" ∧
    (run_claude_task (fun _ _ => false)
      (DevTask.init "dev_w1" "add a founder page" "clawdbot")
      ⟨5, 9, SpawnOutcome.timeout, ⟨1, ""⟩⟩).1.output = "" ∧
    (run_claude_task (fun _ _ => false)
      (DevTask.init "dev_w1" "add a founder page" "clawdbot")
      ⟨5, 9, SpawnOutcome.timeout, ⟨1, ""⟩⟩).1.started_at = some 5 ∧
    Event.spawn ∉ (run_claude_task (fun _ _ => false)
      (DevTask.init "dev_w1" "add a founder page" "clawdbot")
      ⟨5, 9, SpawnOutcome.timeout, ⟨1, ""⟩⟩).2 ∧
    Event.register "dev_w1" "running" ∈ (run_claude_task (fun _ _ => false)
      (DevTask.init "dev_w1" "add a founder page" "clawdbot")
      ⟨5, 9, SpawnOutcome.timeout, ⟨1, ""⟩⟩).2 :=
  c1_amended_rejection_invariants (fun _ _ => false) "dev_w1" "add a founder page"
    "clawdbot" ⟨5, 9, SpawnOutcome.timeout, ⟨1, ""⟩⟩ (by decide)

/-- Claim C3 counterexample: the claim fails in two ways. A task that passed
the Policy Gate but timed out reaches its terminal status with no commit
lookup at all; and on the normal-exit path the single lookup happens before
the terminal status assignment, not after it. -/
theorem c3_counterexample :
    (Event.policyCheck false ∈ (run_claude_task (fun _ _ => false)
        (DevTask.init "dev_c3" "add tests" "bob")
        ⟨5, 9, SpawnOutcome.timeout, ⟨0, "abc123 msg"⟩⟩).2 ∧
     (run_claude_task (fun _ _ => false) (DevTask.init "dev_c3" "add tests" "bob")
        ⟨5, 9, SpawnOutcome.timeout, ⟨0, "abc123 msg"⟩⟩).1.status = "failed" ∧
     Event.gitLookup ∉ (run_claude_task (fun _ _ => false)
        (DevTask.init "dev_c3" "add tests" "bob")
        ⟨5, 9, SpawnOutcome.timeout, ⟨0, "abc123 msg"⟩⟩).2) ∧
    ((run_claude_task (fun _ _ => false) (DevTask.init "dev_c3" "add tests" "bob")
        ⟨5, 9, SpawnOutcome.exited 0 "done" "", ⟨0, "abc123 msg"⟩⟩).2.indexOf
        Event.gitLookup <
      (run_claude_task (fun _ _ => false) (DevTask.init "dev_c3" "add tests" "bob")
        ⟨5, 9, SpawnOutcome.exited 0 "done" "", ⟨0, "abc123 msg"⟩⟩).2.indexOf
        (Event.setStatus "completed")) := by
  decide

/-- Claim C3 (amended): on the normal-exit path the orchestrator performs
exactly one best-effort commit lookup, placed before the terminal status
assignment and the audit write; a lookup with non-zero exit status leaves
`git_commit` unset; the lookup result never influences the final status or
error; and no lookup happens on the timeout or spawn-error paths. -/
theorem c3_amended_commit_lookup_best_effort (r : String → String → Bool)
    (id instr req : String) (env : Env)
    (hpass : (check_privacy_violation r instr).1 = false) :
    (∀ rc out err, env.spawn = .exited rc out err →
      ∃ tr1 tr2,
        (run_claude_task r (DevTask.init id instr req) env).2 =
          tr1 ++ Event.gitLookup :: tr2 ∧
        Event.gitLookup ∉ tr1 ∧ Event.gitLookup ∉ tr2 ∧
        Event.setStatus
          (run_claude_task r (DevTask.init id instr req) env).1.status ∈ tr2 ∧
        Event.writeLog id
          (run_claude_task r (DevTask.init id instr req) env).1.to_dict ∈ tr2) ∧
    (∀ rc out err, env.spawn = .exited rc out err → env.gitLog.returncode ≠ 0 →
      (run_claude_task r (DevTask.init id instr req) env).1.git_commit = "") ∧
    (∀ g : GitResult,
      (run_claude_task r (DevTask.init id instr req)
          { env with gitLog := g }).1.status =
        (run_claude_task r (DevTask.init id instr req) env).1.status ∧
      (run_claude_task r (DevTask.init id instr req)
          { env with gitLog := g }).1.error =
        (run_claude_task r (DevTask.init id instr req) env).1.error) ∧
    ((env.spawn = .timeout ∨ ∃ m, env.spawn = .spawnError m) →
      Event.gitLookup ∉ (run_claude_task r (DevTask.init id instr req) env).2) := by
  have h : (check_privacy_violation r (DevTask.init id instr req).instruction).1 = false :=
    hpass
  refine ⟨?_, ?_, ?_, ?_⟩
  · intro rc out err he
    rw [run_claude_task_exited r _ env rc out err h he]
    refine ⟨[.setStatus "running", .setStartedAt env.startTime,
             .register (DevTask.init id instr req).task_id "running",
             .policyCheck false, .spawn], _, rfl, by simp, ?_, ?_, ?_⟩
    · simp
    · simp
    · simp [DevTask.init]
  · intro rc out err he hg
    rw [run_claude_task_exited r _ env rc out err h he]
    simp [hg, DevTask.init]
  · intro g
    obtain ⟨st, et, sp, git⟩ := env
    cases sp with
    | spawnError msg => simp [run_claude_task, h]
    | timeout => simp [run_claude_task, h]
    | exited rc out err =>
        simp [run_claude_task, h, apply_ite DevTask.status, apply_ite DevTask.error]
  · intro hd
    cases hd with
    | inl ht =>
        rw [run_claude_task_timed_out r _ env h ht]
        simp
    | inr hm =>
        obtain ⟨m, hm⟩ := hm
        rw [run_claude_task_spawn_error r _ env m h hm]
        simp

/-- Witness for C3 amended: a failing lookup leaves the marker unset on the
normal-exit path, and a timed-out run performs no lookup at all. -/
theorem c3_amended_witness :
    (run_claude_task (fun _ _ => false) (DevTask.init "dev_w3" "add tests" "bot")
      ⟨5, 9, SpawnOutcome.exited 1 "out" "boom", ⟨1, "x"⟩⟩).1.git_commit = "" ∧
    Event.gitLookup ∉ (run_claude_task (fun _ _ => false)
      (DevTask.init "dev_w3" "add tests" "bot")
      ⟨5, 9, SpawnOutcome.timeout, ⟨1, "x"⟩⟩).2 :=
  ⟨(c3_amended_commit_lookup_best_effort (fun _ _ => false) "dev_w3" "add tests"
      "bot" ⟨5, 9, SpawnOutcome.exited 1 "out" "boom", ⟨1, "x"⟩⟩
      (by decide)).2.1 1 "out" "boom" rfl (by decide),
   (c3_amended_commit_lookup_best_effort (fun _ _ => false) "dev_w3" "add tests"
      "bot" ⟨5, 9, SpawnOutcome.timeout, ⟨1, "x"⟩⟩
      (by decide)).2.2.2 (Or.inl rfl)⟩

/-- Claim C7: `list_recent_tasks limit` returns at most `limit` records,
ordered by `started_at` descending; a record with no `started_at` takes the
sentinel earliest timestamp, so (whenever real start times are positive, as
`datetime.utcnow()` readings are) unstarted tasks sort after every started
one. -/
theorem c7_list_recent_bounded_and_sorted (tasks : List DevTask) (limit : Nat)
    (hpos : ∀ t ∈ tasks, t.started_at ≠ some 0) :
    (list_recent_tasks tasks limit).length ≤ limit ∧
    List.Pairwise
      (fun a b : TaskView => b.started_at.getD 0 ≤ a.started_at.getD 0)
      (list_recent_tasks tasks limit) ∧
    List.Pairwise
      (fun a b : TaskView => a.started_at = none → b.started_at = none)
      (list_recent_tasks tasks limit) := by
  have hs := @List.sorted_mergeSort DevTask
    (fun a b => decide (b.started_at.getD 0 ≤ a.started_at.getD 0))
    (fun a b c hab hbc => by simp only [decide_eq_true_eq] at *; omega)
    (fun a b => by simp only [Bool.or_eq_true, decide_eq_true_eq]; omega)
    tasks
  have htake := List.Pairwise.sublist (List.take_sublist limit _) hs
  have hview : List.Pairwise
      (fun a b : TaskView => b.started_at.getD 0 ≤ a.started_at.getD 0)
      (list_recent_tasks tasks limit) := by
    unfold list_recent_tasks
    refine List.pairwise_map.mpr (htake.imp ?_)
    intro a b hab
    simp only [decide_eq_true_eq] at hab
    simpa [DevTask.to_dict] using hab
  have hmem : ∀ v ∈ list_recent_tasks tasks limit,
      v.started_at.getD 0 = 0 → v.started_at = none := by
    intro v hv hz
    rw [list_recent_tasks] at hv
    obtain ⟨t, ht, rfl⟩ := List.mem_map.mp hv
    have ht2 : t ∈ tasks := List.mem_mergeSort.mp (List.mem_of_mem_take ht)
    have hne := hpos t ht2
    cases hst : t.started_at with
    | none => simp [DevTask.to_dict, hst]
    | some x =>
        exfalso
        have hz2 : x = 0 := by simpa [DevTask.to_dict, hst] using hz
        exact hne (by rw [hst, hz2])
  refine ⟨?_, hview, ?_⟩
  · rw [list_recent_tasks]
    simp only [List.length_map, List.length_take]
    exact Nat.min_le_left _ _
  · refine hview.imp_of_mem ?_
    intro a b ha hb hab hnone
    have hkeya : a.started_at.getD 0 = 0 := by rw [hnone]; rfl
    have hkeyb : b.started_at.getD 0 = 0 := by omega
    exact hmem b hb hkeyb

/-- Witness for C7: three registered tasks, one never started, limit two. -/
theorem c7_witness :
    (∀ t ∈ [DevTask.init "a" "i" "r",
            { DevTask.init "b" "i" "r" with started_at := some 7 },
            { DevTask.init "c" "i" "r" with started_at := some 5 }],
        t.started_at ≠ some 0) ∧
    ((list_recent_tasks
        [DevTask.init "a" "i" "r",
         { DevTask.init "b" "i" "r" with started_at := some 7 },
         { DevTask.init "c" "i" "r" with started_at := some 5 }] 2).length ≤ 2 ∧
     List.Pairwise
       (fun a b : TaskView => b.started_at.getD 0 ≤ a.started_at.getD 0)
       (list_recent_tasks
         [DevTask.init "a" "i" "r",
          { DevTask.init "b" "i" "r" with started_at := some 7 },
          { DevTask.init "c" "i" "r" with started_at := some 5 }] 2) ∧
     List.Pairwise
       (fun a b : TaskView => a.started_at = none → b.started_at = none)
       (list_recent_tasks
         [DevTask.init "a" "i" "r",
          { DevTask.init "b" "i" "r" with started_at := some 7 },
          { DevTask.init "c" "i" "r" with started_at := some 5 }] 2)) :=
  ⟨by decide,
   c7_list_recent_bounded_and_sorted
     [DevTask.init "a" "i" "r",
      { DevTask.init "b" "i" "r" with started_at := some 7 },
      { DevTask.init "c" "i" "r" with started_at := some 5 }] 2 (by decide)⟩

/-- Helper: the code-point view of `pyTake`. -/
theorem pyTake_data (s : String) (n : Nat) : (pyTake s n).data = s.data.take n := rfl

/-- Helper: the code-point view of `pyTakeLast`. -/
theorem pyTakeLast_data (s : String) (n : Nat) :
    (pyTakeLast s n).data = s.data.drop (s.data.length - n) := rfl

/-- Claim C8: `to_dict` reproduces every field unchanged, except that an
instruction longer than 200 characters becomes exactly its first 200
characters followed by the ellipsis marker, and an output longer than 2000
characters becomes exactly its trailing 2000 characters; shorter values pass
through verbatim. -/
theorem c8_to_dict_truncation_roundtrip (t : DevTask) :
    t.to_dict.task_id = t.task_id ∧
    t.to_dict.requester = t.requester ∧
    t.to_dict.status = t.status ∧
    t.to_dict.started_at = t.started_at ∧
    t.to_dict.completed_at = t.completed_at ∧
    t.to_dict.error = t.error ∧
    t.to_dict.git_commit = t.git_commit ∧
    (t.instruction.length ≤ 200 → t.to_dict.instruction = t.instruction) ∧
    (t.instruction.length > 200 →
      t.to_dict.instruction.data = t.instruction.data.take 200 ++ "...".data) ∧
    (t.output.length ≤ 2000 → t.to_dict.output = t.output) ∧
    (t.output.length > 2000 →
      t.to_dict.output.data.length = 2000 ∧ t.to_dict.output.data <:+ t.output.data) := by
  unfold DevTask.to_dict
  refine ⟨rfl, rfl, rfl, rfl, rfl, rfl, rfl, ?_, ?_, ?_, ?_⟩
  · intro h
    show (if t.instruction.length > 200 then pyTake t.instruction 200 ++ "..."
      else t.instruction) = t.instruction
    rw [if_neg (by omega)]
  · intro h
    show (if t.instruction.length > 200 then pyTake t.instruction 200 ++ "..."
      else t.instruction).data = t.instruction.data.take 200 ++ "...".data
    rw [if_pos h]
    simp [pyTake]
  · intro h
    show (if t.output.length > 2000 then pyTakeLast t.output 2000 else t.output)
      = t.output
    rw [if_neg (by omega)]
  · intro h
    show (if t.output.length > 2000 then pyTakeLast t.output 2000
        else t.output).data.length = 2000 ∧
      (if t.output.length > 2000 then pyTakeLast t.output 2000
        else t.output).data <:+ t.output.data
    rw [if_pos h]
    have hlen : t.output.data.length > 2000 := h
    constructor
    · rw [pyTakeLast_data, List.length_drop]
      omega
    · rw [pyTakeLast_data]
      exact List.drop_suffix _ _

set_option maxRecDepth 8000 in
/-- Witness for C8: a task with a 201-character instruction is truncated to
its first 200 characters plus the ellipsis, while short fields pass through. -/
theorem c8_witness :
    (DevTask.init "dev_w8" (String.mk (List.replicate 201 'a')) "bot").to_dict.instruction.data
      = (String.mk (List.replicate 201 'a')).data.take 200 ++ "...".data ∧
    (DevTask.init "dev_w8" (String.mk (List.replicate 201 'a')) "bot").to_dict.task_id
      = "dev_w8" ∧
    (DevTask.init "dev_w8" (String.mk (List.replicate 201 'a')) "bot").to_dict.output
      = "" :=
  ⟨(c8_to_dict_truncation_roundtrip
      (DevTask.init "dev_w8" (String.mk (List.replicate 201 'a')) "bot")).2.2.2.2.2.2.2.2.1
      (by decide),
   (c8_to_dict_truncation_roundtrip
      (DevTask.init "dev_w8" (String.mk (List.replicate 201 'a')) "bot")).1,
   (c8_to_dict_truncation_roundtrip
      (DevTask.init "dev_w8" (String.mk (List.replicate 201 'a')) "bot")).2.2.2.2.2.2.2.2.2.1
      (by decide)⟩
